import Mathlib

/-!
Shallow embedding of the Lumen wallet-evaluation pipeline.

Sources embedded here:
  * `src/scrapers/gmgn.py` — the fetch client (`_sync_fetch`) and the
    evaluator (`evaluate_trader`);
  * `src/scrapers/bullx.py` — the wallet-list fetch (`fetch_top500_traders`);
  * `src/multi-coin-processor.py` — the coordinator (`TokenProcessor`):
    dedup, per-wallet save (`evaluate_and_save`), checkpointing
    (`mark_token_processed`), and the target loop (`process_all_tokens`).

Python floats are modelled as rationals, dictionaries with `.get` defaults as
records whose fields carry those defaults, and raised exceptions as values
carrying the exception message inspected by the handlers.
-/

namespace Lumen

/-- Does the character list `p` match a leading segment of `l`? -/
def headMatch : List Char → List Char → Bool
  | [], _ => true
  | _ :: _, [] => false
  | p :: ps, c :: cs => p == c && headMatch ps cs

/-- Substring occurrence over character lists: does `p` occur contiguously in
the second argument?  Models the Python `pat in s` test. -/
def charsHave (p : List Char) : List Char → Bool
  | [] => p.isEmpty
  | c :: cs => headMatch p (c :: cs) || charsHave p cs

/-- Python `pat in s` on strings. -/
def hasSub (s pat : String) : Bool := charsHave pat.data s.data

/-- ASCII lower-casing of one character (the only characters the handlers'
messages contain), modelling Python `str.lower()`. -/
def lowChar (c : Char) : Char :=
  if 65 ≤ c.toNat ∧ c.toNat ≤ 90 then Char.ofNat (c.toNat + 32) else c

/-- Python `s.lower()` on the ASCII messages this code base produces. -/
def lowerStr (s : String) : String := ⟨s.data.map lowChar⟩

/-! ## Evaluator (`gmgn.evaluate_trader`) -/

/-- One holding entry as read by `evaluate_trader` from the GMGN
`wallet_holdings` response: the nested `token.symbol` and the
`total_profit_pnl` field, with the `.get` defaults already applied. -/
structure Holding where
  symbol : String
  total_profit_pnl : ℚ
deriving Repr, DecidableEq

/-- The fields of the GMGN `wallet_stat` summary read by `evaluate_trader`,
with the `.get` defaults applied (an absent key becomes `0` / `[]`). -/
structure Summary where
  tags : List String
  winrate : ℚ
  realized_profit_7d : ℚ
  realized_profit_30d : ℚ
  pnl_7d : ℚ
  pnl_30d : ℚ
  buy_7d : Int
  sell_7d : Int
  buy_30d : Int
  sell_30d : Int
deriving Repr, DecidableEq

/-- One entry of the `top_holdings` list built by `evaluate_trader`. -/
structure StatsHolding where
  symbol : String
  roi : ℚ
deriving Repr, DecidableEq

/-- The stats dictionary built at step 3 of `gmgn.evaluate_trader`. -/
structure TStats where
  tags : List String
  winrate : ℚ
  pnl_usd_7d : ℚ
  pnl_usd_30d : ℚ
  pnl_pct_7d : ℚ
  pnl_pct_30d : ℚ
  tx_7d : Int
  tx_30d : Int
  top_holdings : List StatsHolding
deriving Repr, DecidableEq

/-- Step 3 of `evaluate_trader`: build the stats dict from the summary and the
truncated holdings list. -/
def buildStats (d : Summary) (top_hold : List Holding) : TStats :=
  { tags := d.tags
    winrate := d.winrate
    pnl_usd_7d := d.realized_profit_7d
    pnl_usd_30d := d.realized_profit_30d
    pnl_pct_7d := d.pnl_7d
    pnl_pct_30d := d.pnl_30d
    tx_7d := d.buy_7d + d.sell_7d
    tx_30d := d.buy_30d + d.sell_30d
    top_holdings := top_hold.map (fun h => ⟨h.symbol, h.total_profit_pnl⟩) }

/-- Default `min_pnl30` of `evaluate_trader` (Python `0.75`). -/
def default_min_pnl30 : ℚ := 3 / 4

/-- Default `min_roi` of `evaluate_trader` (Python `0.30`). -/
def default_min_roi : ℚ := 3 / 10

/-- Default `top_n` of `evaluate_trader`. -/
def default_top_n : Nat := 3

/-- `gmgn.evaluate_trader` after its two fetches: `summary = none` models the
empty dict returned by a failed summary fetch (step 1), `holdings` the list
returned by `get_wallet_holdings` (step 2).  Returns the reason code and the
stats dict; `none` in the second component models the empty dict that
accompanies `JSON_FAIL`. -/
def evaluate_trader (summary : Option Summary) (holdings : List Holding)
    (min_pnl30 : ℚ) (min_roi : ℚ) (top_n : Nat) : String × Option TStats :=
  match summary with
  | none => ("JSON_FAIL", none)
  | some data =>
    let top_hold := holdings.take top_n
    let stats := buildStats data top_hold
    if "sandwich_bot" ∈ stats.tags then ("TAG_sandwich_bot", some stats)
    else if stats.pnl_pct_30d ≤ min_pnl30 then ("PNL30_LOW", some stats)
    else if stats.top_holdings.all (fun h => h.roi < min_roi) then ("ROI_LOW", some stats)
    else ("PASS", some stats)

/-! ## Fetch client (`gmgn._sync_fetch`) -/

/-- The `data` section of a GMGN payload, modelled as its raw key/value
entries (its content is passed through untouched by the fetch client). -/
structure GData where
  entries : List (String × String)
deriving Repr, DecidableEq, Inhabited

/-- The empty mapping `{}` returned when the `data` section is absent. -/
def emptyGData : GData := ⟨[]⟩

/-- What one HTTP attempt inside `_sync_fetch` can yield. -/
inductive HttpResult where
  /-- `resp.status_code == 429`. -/
  | status429
  /-- `resp.raise_for_status()` raised (non-2xx, non-429) — lands in the
  generic `except Exception` branch. -/
  | httpError
  /-- `resp.json()` raised `JSONDecodeError` / `ValueError`. -/
  | badJson
  /-- A parsed body with its application-level `code` field and its optional
  `data` section. -/
  | payload (code : Int) (data : Option GData)
  /-- `scraper.get` itself raised — lands in the generic `except` branch. -/
  | transportError
deriving Repr, DecidableEq

/-- The environment of one iteration of the `_sync_fetch` retry loop:
`stopA` is the value `stop_processing_callback()` returns at the pre-attempt
check, `stopB` the value the flag holds at the moment a retry sleep would
begin (the source reads it there only in the 429 branch), `res` what the
HTTP attempt yields, and `u2` / `u1` the `random.uniform(0, 2)` and
`random.uniform(0, 1)` jitter draws. -/
structure Iter where
  stopA : Bool
  stopB : Bool
  res : HttpResult
  u2 : ℚ
  u1 : ℚ
deriving Repr, DecidableEq

/-- Observable actions of one loop iteration. -/
inductive FetchEv where
  /-- The HTTP request was issued (`scraper.get`). -/
  | httpGet
  /-- `time.sleep(secs)` ran. -/
  | slept (secs : ℚ)
deriving Repr, DecidableEq

/-- Result of one iteration of the retry loop. -/
inductive StepOutcome where
  /-- `return payload.get("data", {})`. -/
  | done (d : GData)
  /-- The pre-attempt stop check raised and the exception escaped the loop
  (that `raise` sits outside the `try` block). -/
  | cancelled (msg : String)
  /-- The iteration ended in a backoff sleep of `backoff` seconds and the
  loop continues. -/
  | retry (backoff : ℚ)
deriving Repr, DecidableEq

/-- One iteration of the `while True` loop of `gmgn._sync_fetch`, paired with
the trace of observable actions it performs.  Only the pre-attempt stop
check can terminate the loop with a cancellation: its `raise` is outside the
`try`.  The 429 branch's own stop check raises `"Processing stopped by user
due to rate limit"` *inside* the `try`, and a bare `Exception` is not a
`ValueError`, so the generic `except Exception` handler catches it, sleeps
5 seconds and lets the loop continue — the only effect of that check is to
replace the `3 + uniform(0, 2)` backoff by a 5-second sleep. -/
def loopStep (it : Iter) : StepOutcome × List FetchEv :=
  if it.stopA then (.cancelled "Processing stopped by user", [])
  else
    match it.res with
    | .status429 =>
      if it.stopB then (.retry 5, [.httpGet, .slept 5])
      else (.retry (3 + it.u2), [.httpGet, .slept (3 + it.u2)])
    | .httpError => (.retry 5, [.httpGet, .slept 5])
    | .badJson => (.retry 2, [.httpGet, .slept 2])
    | .payload code data =>
      if code = 0 then (.done (data.getD emptyGData), [.httpGet])
      else (.retry (2 + it.u1), [.httpGet, .slept (2 + it.u1)])
    | .transportError => (.retry 5, [.httpGet, .slept 5])

/-- Run `_sync_fetch` against a finite prefix of attempt environments:
`(none, n)` means the loop consumed all `n` environments and is still
retrying; `(some r, k)` means it reached the decisive outcome `r` on
attempt `k`. -/
def runFetch : List Iter → Option (Except String GData) × Nat
  | [] => (none, 0)
  | it :: its =>
    match loopStep it with
    | (.done d, _) => (some (.ok d), 1)
    | (.cancelled m, _) => (some (.error m), 1)
    | (.retry _, _) =>
      let r := runFetch its
      (r.1, r.2 + 1)

/-- An attempt environment in which the upstream answers HTTP 429 and the
stop flag is never set. -/
def iter429 : Iter := ⟨false, false, .status429, 0, 0⟩

/-! ## Result store and coordinator (`multi-coin-processor.py`) -/

/-- A BullX trader entry as consumed by the coordinator, with the `.get`
defaults applied to the fields it reads. -/
structure Trader where
  address : String
  totalBoughtUSD : ℚ := 0
  totalSoldUSD : ℚ := 0
  currentlyHoldingAmount : ℚ := 0
  totalBuyTransactions : Int := 0
  totalSellTransactions : Int := 0
deriving Repr, DecidableEq

/-- The dedup loop of `TokenProcessor.fetch_traders_data` (with the stop flag
unset): walk the fetched list, keeping a trader exactly when its address is
non-empty (truthy) and not yet in `seen`.  Non-dict entries, which the
source merely logs and drops, are outside this model. -/
def dedupTraders : List String → List Trader → List Trader
  | _, [] => []
  | seen, t :: ts =>
    if t.address ≠ "" ∧ t.address ∉ seen then
      t :: dedupTraders (t.address :: seen) ts
    else
      dedupTraders seen ts

/-- The `realized_profit_ratio` column: either the literal `"0.0x"` written
when `totalBoughtUSD` is not positive, or the quotient that the source
formats as `f"{sold/bought:.2f}x"` (the two-decimal rendering is abstracted
to the exact quotient). -/
inductive RatioTxt where
  | zero
  | ofRat (q : ℚ)
deriving Repr, DecidableEq

/-- A Python stats dict as consumed by `save_trader_data`; every field
carries the default that `stats.get(key, default)` supplies when the key is
absent, so the all-default record is the empty dict. -/
structure StatsDict where
  tags : List String := []
  winrate : ℚ := 0
  pnl_usd_7d : ℚ := 0
  pnl_usd_30d : ℚ := 0
  pnl_pct_7d : ℚ := 0
  pnl_pct_30d : ℚ := 0
  tx_7d : Int := 0
  tx_30d : Int := 0
  top_holdings : List StatsHolding := []
  total_bought_usd : ℚ := 0
  total_sold_usd : ℚ := 0
  realized_profit_usd : ℚ := 0
  realizedProfitRatio : RatioTxt := .zero
  currently_holding_amount : ℚ := 0
  total_buy_transactions : Int := 0
  total_sell_transactions : Int := 0
deriving Repr, DecidableEq

/-- One row of the `traders` table as written by `save_trader_data`, keyed by
`(wallet_address, token_address)`. -/
structure SavedRow where
  wallet_address : String
  token_address : String
  token_name : String
  token_symbol : String
  total_bought_usd : ℚ
  total_sold_usd : ℚ
  realized_profit_usd : ℚ
  realizedProfitRatio : RatioTxt
  currently_holding_amount : ℚ
  total_buy_transactions : Int
  total_sell_transactions : Int
  evaluation_result : String
  tagsJson : Option (List String)
  winrate : ℚ
  pnl_usd_7d : ℚ
  pnl_usd_30d : ℚ
  pnl_pct_7d : ℚ
  pnl_pct_30d : ℚ
  tx_7d : Int
  tx_30d : Int
  top_holdings : List StatsHolding
deriving Repr, DecidableEq

/-- `TokenProcessor.save_trader_data`: the row upserted into `traders`.
`tagsJson = none` models `tags_json = None`, written when the tag list is
empty. -/
def save_trader_data (wallet token_addr token_nm token_sym : String)
    (result : String) (stats : StatsDict) : SavedRow :=
  { wallet_address := wallet
    token_address := token_addr
    token_name := token_nm
    token_symbol := token_sym
    total_bought_usd := stats.total_bought_usd
    total_sold_usd := stats.total_sold_usd
    realized_profit_usd := stats.realized_profit_usd
    realizedProfitRatio := stats.realizedProfitRatio
    currently_holding_amount := stats.currently_holding_amount
    total_buy_transactions := stats.total_buy_transactions
    total_sell_transactions := stats.total_sell_transactions
    evaluation_result := result
    tagsJson := if stats.tags = [] then none else some stats.tags
    winrate := stats.winrate
    pnl_usd_7d := stats.pnl_usd_7d
    pnl_usd_30d := stats.pnl_usd_30d
    pnl_pct_7d := stats.pnl_pct_7d
    pnl_pct_30d := stats.pnl_pct_30d
    tx_7d := stats.tx_7d
    tx_30d := stats.tx_30d
    top_holdings := stats.top_holdings }

/-- The outcome of the `evaluate_trader(...)` call as seen by
`evaluate_and_save`: either the returned pair or a raised exception's
message. -/
inductive EvalOutcome where
  | ok (reason : String) (gstats : Option TStats)
  | exc (msg : String)
deriving Repr, DecidableEq

/-- The throttling / stop-signal test of the `except` branches:
`'429' in str(e) or 'rate limit' in str(e).lower() or 'stopped by user' in str(e).lower()`. -/
def stopMarkers (msg : String) : Bool :=
  hasSub msg "429" || hasSub (lowerStr msg) "rate limit" ||
    hasSub (lowerStr msg) "stopped by user"

/-- `combined_stats` in `evaluate_and_save`: the gmgn stats dict (empty when
the evaluation returned `JSON_FAIL`) updated with the BullX-derived
fields. -/
def combineStats (g : Option TStats) (t : Trader) : StatsDict :=
  let base : StatsDict :=
    match g with
    | none => {}
    | some s =>
      { tags := s.tags, winrate := s.winrate, pnl_usd_7d := s.pnl_usd_7d
        pnl_usd_30d := s.pnl_usd_30d, pnl_pct_7d := s.pnl_pct_7d
        pnl_pct_30d := s.pnl_pct_30d, tx_7d := s.tx_7d, tx_30d := s.tx_30d
        top_holdings := s.top_holdings }
  { base with
    total_bought_usd := t.totalBoughtUSD
    total_sold_usd := t.totalSoldUSD
    realized_profit_usd := t.totalSoldUSD - t.totalBoughtUSD
    realizedProfitRatio :=
      if t.totalBoughtUSD > 0 then .ofRat (t.totalSoldUSD / t.totalBoughtUSD) else .zero
    currently_holding_amount := t.currentlyHoldingAmount
    total_buy_transactions := t.totalBuyTransactions
    total_sell_transactions := t.totalSellTransactions }

/-- `error_stats` in `evaluate_and_save`'s `except` branch: the dict of seven
explicit zeros; every other key is absent, so every field carries its
`save_trader_data` default. -/
def errorStats : StatsDict := {}

/-- The externally visible effect of one `evaluate_and_save` call. -/
structure SaveEffect where
  /-- The row handed to `save_trader_data`, if any. -/
  row : Option SavedRow
  /-- The value of `self.stop_processing` afterwards. -/
  stopAfter : Bool
  /-- The increment applied to `passed_traders`. -/
  passedInc : Nat
  /-- Whether the fatal callback was invoked. -/
  fatalCalled : Bool
deriving Repr, DecidableEq

/-- `evaluate_and_save` inside `process_single_token`: check the stop flag,
evaluate, save the combined row (counting a `PASS`), and on an exception
either propagate the stop/throttle signal without saving, or save an
`ERROR` row built from `error_stats`. -/
def evaluate_and_save (stop_processing : Bool) (token_addr token_nm token_sym : String)
    (t : Trader) (res : EvalOutcome) : SaveEffect :=
  if stop_processing then ⟨none, stop_processing, 0, false⟩
  else
    match res with
    | .ok reason gstats =>
      ⟨some (save_trader_data t.address token_addr token_nm token_sym reason
              (combineStats gstats t)),
       stop_processing, if reason = "PASS" then 1 else 0, false⟩
    | .exc m =>
      if stopMarkers m then ⟨none, true, 0, true⟩
      else
        ⟨some (save_trader_data t.address token_addr token_nm token_sym "ERROR" errorStats),
         stop_processing, 0, false⟩

/-- One row of the `processed_tokens` table. -/
structure Checkpoint where
  token_address : String
  token_name : String
  token_symbol : String
  total_holders : Nat
  passed_traders : Nat
deriving Repr, DecidableEq

/-- The SQLite database owned by the coordinator. -/
structure Db where
  processed_tokens : List Checkpoint
  traders : List SavedRow
deriving Repr, DecidableEq

/-- `TokenProcessor.get_processed_token_addresses` (membership view of the
returned set). -/
def get_processed_token_addresses (db : Db) : List String :=
  db.processed_tokens.map Checkpoint.token_address

/-- `TokenProcessor.mark_token_processed`: `INSERT OR REPLACE` keyed on
`token_address`. -/
def mark_token_processed (db : Db) (c : Checkpoint) : Db :=
  { db with processed_tokens :=
      c :: db.processed_tokens.filter (fun x => x.token_address ≠ c.token_address) }

/-- One `(token_address, token_name)` line of `tokens.txt`. -/
structure Token where
  addr : String
  name : String
deriving Repr, DecidableEq

/-- Split a character list at every occurrence of `sep` (accumulator holds
the current piece reversed).  Models Python `s.split(sep)` for a one-character
separator. -/
def splitCharAux (sep : Char) : List Char → List Char → List (List Char)
  | [], acc => [acc.reverse]
  | c :: cs, acc =>
    if c == sep then acc.reverse :: splitCharAux sep cs []
    else splitCharAux sep cs (c :: acc)

/-- Python `s.split(sep)` for a one-character separator. -/
def splitStr (sep : Char) (s : String) : List String :=
  (splitCharAux sep s.data []).map (fun l => ⟨l⟩)

/-- Python `name.split()[0]` on the names this code base handles (the source
raises on an all-whitespace name; here that degenerate case yields `""`). -/
def firstWord (s : String) : String :=
  ((splitStr ' ' s).filter (fun w => w ≠ "")).headD ""

/-- Python `s.rstrip(')')`. -/
def dropRightParens (s : String) : String :=
  ⟨(s.data.reverse.dropWhile (fun c => c == ')')).reverse⟩

/-- The token-symbol extraction at the top of `process_single_token`. -/
def tokenSymbol (name : String) : String :=
  if name = "UNKNOWN" then "UNKNOWN"
  else if hasSub name "(" ∧ hasSub name ")" then
    let m := dropRightParens ((splitStr '(' name).getLastD name)
    if m ≠ "" then m else firstWord name
  else firstWord name

/-- The result dict returned by `process_single_token`. -/
structure TargetResult where
  token_address : String
  token_name : String
  total_traders : Nat
  passed_traders : Nat
deriving Repr, DecidableEq

/-- `process_single_token` on the branch where `fetch_traders_data` produced
no traders: record the zero/zero checkpoint and return the zero result. -/
def process_single_token_noTraders (db : Db) (tok : Token) : Db × TargetResult :=
  let sym := tokenSymbol tok.name
  (mark_token_processed db ⟨tok.addr, tok.name, sym, 0, 0⟩,
   ⟨tok.addr, tok.name, 0, 0⟩)

/-- A raised Python exception as inspected by the handlers: its message and,
when it carries a response, that response's HTTP status. -/
structure PyExc where
  msg : String
  respStatus : Option Int
deriving Repr, DecidableEq

/-- The `except` branch of `TokenProcessor.fetch_traders_data`: always
returns the empty trader list; returns the new value of the stop flag and
whether the fatal callback was requested. -/
def fetch_traders_data_onError (stop_processing : Bool) (e : PyExc) :
    List Trader × Bool × Bool :=
  if e.respStatus = some 429 then ([], true, true)
  else if hasSub e.msg "429" || hasSub (lowerStr e.msg) "rate limit" then ([], true, true)
  else ([], stop_processing, false)

/-- The unprocessed-token computation at the top of `process_all_tokens`. -/
def unprocessedTokens (tokens : List Token) (processed : List String) : List Token :=
  tokens.filter (fun t => t.addr ∉ processed)

/-- Coordinator state threaded through the target loop: the stop flag, the
database, and the list of targets on which `process_single_token` has been
started. -/
structure CoordSt where
  stopFlag : Bool
  db : Db
  started : List Token
deriving Repr, DecidableEq

/-- The per-token loop of `process_all_tokens`.  `step` models one
`process_single_token` call: it returns the updated state and, when the call
raised, the exception's message.  The stop flag is checked before each token
is started; a throttling exception sets the stop flag and breaks; any other
exception is logged and the loop continues with the next token. -/
def runLoop (step : Token → CoordSt → CoordSt × Option String) :
    List Token → CoordSt → CoordSt
  | [], s => s
  | t :: ts, s =>
    if s.stopFlag then s
    else
      let r := step t { s with started := s.started ++ [t] }
      match r.2 with
      | none => runLoop step ts r.1
      | some m =>
        if hasSub m "429" || hasSub (lowerStr m) "rate limit" then
          { r.1 with stopFlag := true }
        else runLoop step ts r.1

/-- `TokenProcessor.process_all_tokens`: restrict the token list to the
not-yet-checkpointed targets, then run the loop. -/
def process_all_tokens (step : Token → CoordSt → CoordSt × Option String)
    (tokens : List Token) (s : CoordSt) : CoordSt :=
  runLoop step (unprocessedTokens tokens (get_processed_token_addresses s.db)) s

/-! ## Helper lemmas -/

/-- The dedup loop only ever drops elements: its output is a sublist of its
input, so input order is preserved. -/
theorem dedupTraders_sublist (seen : List String) (ts : List Trader) :
    (dedupTraders seen ts).Sublist ts := by
  induction ts generalizing seen with
  | nil => simp [dedupTraders]
  | cons t ts ih =>
    by_cases h : t.address ≠ "" ∧ t.address ∉ seen
    · simp only [dedupTraders, if_pos h]
      exact (ih (t.address :: seen)).cons₂ t
    · simp only [dedupTraders, if_neg h]
      exact (ih seen).cons t

/-- Address membership in the dedup loop's output: exactly the non-empty
input addresses not already in `seen`. -/
theorem mem_dedupTraders_addr (seen : List String) (ts : List Trader) (a : String) :
    a ∈ (dedupTraders seen ts).map Trader.address ↔
      a ≠ "" ∧ a ∉ seen ∧ a ∈ ts.map Trader.address := by
  induction ts generalizing seen with
  | nil => simp [dedupTraders]
  | cons t ts ih =>
    by_cases h : t.address ≠ "" ∧ t.address ∉ seen
    · simp only [dedupTraders, if_pos h, List.map_cons, List.mem_cons, ih, List.mem_cons]
      constructor
      · rintro (rfl | ⟨hne, hns, hmem⟩)
        · exact ⟨h.1, h.2, Or.inl rfl⟩
        · exact ⟨hne, fun hs => hns (Or.inr hs), Or.inr hmem⟩
      · rintro ⟨hne, hns, rfl | hmem⟩
        · exact Or.inl rfl
        · by_cases heq : a = t.address
          · exact Or.inl heq
          · exact Or.inr ⟨hne, fun hs => hs.elim heq hns, hmem⟩
    · simp only [dedupTraders, if_neg h, ih, List.map_cons, List.mem_cons]
      constructor
      · rintro ⟨hne, hns, hmem⟩
        exact ⟨hne, hns, Or.inr hmem⟩
      · rintro ⟨hne, hns, rfl | hmem⟩
        · rcases not_and_or.mp h with h1 | h2
          · exact absurd (not_not.mp h1) hne
          · exact absurd (not_not.mp h2) hns
        · exact ⟨hne, hns, hmem⟩

/-- The addresses surviving the dedup loop are pairwise distinct. -/
theorem dedupTraders_nodup (seen : List String) (ts : List Trader) :
    ((dedupTraders seen ts).map Trader.address).Nodup := by
  induction ts generalizing seen with
  | nil => simp [dedupTraders]
  | cons t ts ih =>
    by_cases h : t.address ≠ "" ∧ t.address ∉ seen
    · simp only [dedupTraders, if_pos h, List.map_cons, List.nodup_cons]
      refine ⟨fun hmem => ?_, ih _⟩
      exact ((mem_dedupTraders_addr _ _ _).mp hmem).2.1 (List.mem_cons_self _ _)
    · simp only [dedupTraders, if_neg h]
      exact ih seen

/-- Every trader kept by the dedup loop is the first input entry bearing its
address. -/
theorem dedupTraders_first_occ (seen : List String) (ts : List Trader) :
    ∀ t' ∈ dedupTraders seen ts, ts.find? (fun s => s.address == t'.address) = some t' := by
  induction ts generalizing seen with
  | nil => simp [dedupTraders]
  | cons t ts ih =>
    intro t' ht'
    by_cases h : t.address ≠ "" ∧ t.address ∉ seen
    · rw [dedupTraders, if_pos h] at ht'
      rcases List.mem_cons.mp ht' with rfl | hmem
      · exact List.find?_cons_of_pos _ (by simp)
      · have haddr := (mem_dedupTraders_addr _ _ _).mp
          (List.mem_map_of_mem Trader.address hmem)
        have hne : t.address ≠ t'.address :=
          fun he => haddr.2.1 (he ▸ List.mem_cons_self _ _)
        rw [List.find?_cons_of_neg _ (by simp [hne])]
        exact ih _ t' hmem
    · rw [dedupTraders, if_neg h] at ht'
      have haddr := (mem_dedupTraders_addr _ _ _).mp
        (List.mem_map_of_mem Trader.address ht')
      have hne : t.address ≠ t'.address := by
        intro he
        rcases not_and_or.mp h with h1 | h2
        · exact haddr.1 (by rw [← he, not_not.mp h1])
        · exact haddr.2.1 (he ▸ not_not.mp h2)
      rw [List.find?_cons_of_neg _ (by simp [hne])]
      exact ih _ t' ht'

/-- Under persistent HTTP 429 with the stop flag never set, the fetch loop
consumes every available attempt without reaching a decisive outcome: it
neither returns nor raises, so no caller-side handler can ever run. -/
theorem runFetch_persistent429 : ∀ n, runFetch (List.replicate n iter429) = (none, n) := by
  intro n
  induction n with
  | zero => rfl
  | succ k ih =>
    simp only [iter429] at ih ⊢
    simp [List.replicate_succ, runFetch, loopStep, ih]

/-! ## C3: the tag filter fires first -/

/-- C3: for every wallet whose fetched summary is non-empty and whose tag set
contains `sandwich_bot`, `evaluate_trader` returns reason
`TAG_sandwich_bot`, regardless of the 30-day PnL percent, the holdings'
ROIs, and the configured thresholds. -/
theorem evaluate_tag_filter_first (d : Summary) (holdings : List Holding)
    (min_pnl30 min_roi : ℚ) (top_n : Nat) (htag : "sandwich_bot" ∈ d.tags) :
    (evaluate_trader (some d) holdings min_pnl30 min_roi top_n).1 = "TAG_sandwich_bot" := by
  simp [evaluate_trader, buildStats, htag]

/-- Witness for C3: a wallet tagged `sandwich_bot` with huge PnL and ROI
still fails with `TAG_sandwich_bot` at the default thresholds. -/
theorem evaluate_tag_filter_first_witness :
    (evaluate_trader (some ⟨["sandwich_bot"], 0, 0, 0, 0, 100, 0, 0, 0, 0⟩)
      [⟨"X", 9⟩] default_min_pnl30 default_min_roi default_top_n).1 = "TAG_sandwich_bot" :=
  evaluate_tag_filter_first _ _ _ _ _ (by decide)

/-! ## C4: the 30-day PnL boundary is exclusive -/

/-- C4: for every wallet with a non-empty summary and no disallowed tag,
`evaluate_trader` returns `PNL30_LOW` exactly when the 30-day PnL percent is
`≤` the threshold; in particular a value exactly equal to the threshold
fails, and passing this filter requires a strictly greater value. -/
theorem evaluate_pnl30_boundary (d : Summary) (holdings : List Holding)
    (min_pnl30 min_roi : ℚ) (top_n : Nat) (htag : "sandwich_bot" ∉ d.tags) :
    (d.pnl_30d = min_pnl30 →
      (evaluate_trader (some d) holdings min_pnl30 min_roi top_n).1 = "PNL30_LOW") ∧
    ((evaluate_trader (some d) holdings min_pnl30 min_roi top_n).1 = "PNL30_LOW" ↔
      d.pnl_30d ≤ min_pnl30) := by
  by_cases hle : d.pnl_30d ≤ min_pnl30
  · exact ⟨fun _ => by simp [evaluate_trader, buildStats, htag, hle],
      by simp [evaluate_trader, buildStats, htag, hle]⟩
  · refine ⟨fun heq => absurd heq.le hle, ?_⟩
    simp only [evaluate_trader, buildStats, htag, hle, if_false, iff_false]
    intro h
    split at h <;> simp_all

/-- Witness for C4: a wallet with 30-day PnL percent exactly `0.75` and no
disallowed tag fails with `PNL30_LOW` at the default threshold. -/
theorem evaluate_pnl30_boundary_witness :
    (evaluate_trader (some ⟨[], 0, 0, 0, 0, 3 / 4, 0, 0, 0, 0⟩) [⟨"X", 9⟩]
      default_min_pnl30 default_min_roi default_top_n).1 = "PNL30_LOW" :=
  (evaluate_pnl30_boundary ⟨[], 0, 0, 0, 0, 3 / 4, 0, 0, 0, 0⟩ [⟨"X", 9⟩]
    default_min_pnl30 default_min_roi default_top_n (by decide)).1 rfl

/-! ## C10: empty holdings can never pass -/

/-- C10: a wallet with non-empty summary, no disallowed tag and 30-day PnL
percent above the threshold whose fetched holdings list is empty gets
`ROI_LOW` (the `all` test is vacuously true over an empty list); and no
wallet with an empty holdings list can ever receive `PASS`. -/
theorem evaluate_empty_holdings_roi_low (d : Summary) (min_pnl30 min_roi : ℚ) (top_n : Nat)
    (htag : "sandwich_bot" ∉ d.tags) (hpnl : min_pnl30 < d.pnl_30d) :
    (evaluate_trader (some d) [] min_pnl30 min_roi top_n).1 = "ROI_LOW" ∧
    ∀ s : Option Summary, (evaluate_trader s [] min_pnl30 min_roi top_n).1 ≠ "PASS" := by
  constructor
  · simp [evaluate_trader, buildStats, htag, not_le.mpr hpnl]
  · intro s
    cases s with
    | none => simp [evaluate_trader]
    | some d' =>
      simp only [evaluate_trader, buildStats, List.take_nil, List.map_nil, List.all_nil]
      split
      · simp
      · split <;> simp

/-- Witness for C10: a wallet with PnL percent `1 > 0.75`, no tags and no
holdings fails with `ROI_LOW` at the default thresholds, not `PASS`. -/
theorem evaluate_empty_holdings_roi_low_witness :
    (evaluate_trader (some ⟨[], 0, 0, 0, 0, 1, 0, 0, 0, 0⟩) []
      default_min_pnl30 default_min_roi default_top_n).1 = "ROI_LOW" :=
  (evaluate_empty_holdings_roi_low ⟨[], 0, 0, 0, 0, 1, 0, 0, 0, 0⟩
    default_min_pnl30 default_min_roi default_top_n (by decide)
    (by norm_num [default_min_pnl30])).1

/-! ## C5: the retry backoff table -/

/-- C5: one iteration of the `_sync_fetch` retry loop applies exactly the
documented backoffs (with the stop flag unset): HTTP 429 sleeps `3 +
uniform(0,2)` and retries — and under persistent 429 the loop retries
without bound; a parsed body with non-zero application code sleeps `2 +
uniform(0,1)`; an unparseable body sleeps `2`; any other transport/HTTP
exception sleeps `5`; and a code-0 body returns its `data` section, the
empty mapping when absent. -/
theorem fetch_backoff_policy (u2 u1 : ℚ) (c : Int) (d : Option GData) :
    (loopStep ⟨false, false, .status429, u2, u1⟩).1 = .retry (3 + u2) ∧
    (loopStep ⟨false, false, .payload c d, u2, u1⟩).1 =
      (if c = 0 then .done (d.getD emptyGData) else .retry (2 + u1)) ∧
    (loopStep ⟨false, false, .badJson, u2, u1⟩).1 = .retry 2 ∧
    (loopStep ⟨false, false, .transportError, u2, u1⟩).1 = .retry 5 ∧
    (loopStep ⟨false, false, .httpError, u2, u1⟩).1 = .retry 5 ∧
    (∀ n, runFetch (List.replicate n iter429) = (none, n)) := by
  refine ⟨rfl, ?_, rfl, rfl, rfl, runFetch_persistent429⟩
  by_cases hc : c = 0 <;> simp [loopStep, hc]

/-! ## C6: where the cancellation flag is (and is not) observed -/

/-- Counterexample for C6: with the stop flag true at the moment a retry
sleep would begin, no branch fails immediately with a cancellation.  The
bad-JSON branch sleeps 2 seconds and retries, the non-zero-code and
transport branches sleep and retry without ever consulting the flag, and
even the 429 branch — the only one that does re-check the flag before its
sleep — does not fail there: its internal raise is caught by the loop's own
generic exception handler, which sleeps 5 seconds and retries. -/
theorem fetch_no_check_before_json_sleep :
    loopStep ⟨false, true, .badJson, 0, 0⟩ = (.retry 2, [.httpGet, .slept 2]) ∧
    loopStep ⟨false, true, .payload 1 none, 0, 0⟩ =
      (.retry (2 + 0), [.httpGet, .slept (2 + 0)]) ∧
    loopStep ⟨false, true, .transportError, 0, 0⟩ = (.retry 5, [.httpGet, .slept 5]) ∧
    loopStep ⟨false, true, .status429, 0, 0⟩ = (.retry 5, [.httpGet, .slept 5]) :=
  ⟨rfl, rfl, rfl, rfl⟩

/-- C6 (amended): the stop predicate is consulted before each HTTP attempt —
when true there the fetch raises `"Processing stopped by user"` at once,
performing no HTTP request (that raise is outside the `try`).  It is
re-checked in the 429 branch before that branch's backoff sleep, but the
raise there is caught by the loop's generic exception handler, which sleeps
5 seconds (in place of the `3 + uniform(0, 2)` backoff) and retries; with
the flag still set, the fetch then fails at the next iteration's
pre-attempt check, with the plain cancellation message and without issuing
another HTTP request.  The other retry branches perform their backoff sleep
without consulting the flag. -/
theorem fetch_cancellation_checks (it : Iter) (u2 u1 : ℚ) (rest : List Iter) :
    (it.stopA = true → loopStep it = (.cancelled "Processing stopped by user", [])) ∧
    (it.stopA = false → it.res = .status429 → it.stopB = true →
      loopStep it = (.retry 5, [.httpGet, .slept 5])) ∧
    (∀ it2 : Iter, it2.stopA = true →
      runFetch (⟨false, true, .status429, u2, u1⟩ :: it2 :: rest) =
        (some (.error "Processing stopped by user"), 2)) ∧
    (it.stopA = false → it.res = .badJson →
      loopStep it = (.retry 2, [.httpGet, .slept 2])) ∧
    (it.stopA = false → it.res = .httpError →
      loopStep it = (.retry 5, [.httpGet, .slept 5])) ∧
    (it.stopA = false → it.res = .transportError →
      loopStep it = (.retry 5, [.httpGet, .slept 5])) := by
  refine ⟨?_, ?_, ?_, ?_, ?_, ?_⟩
  · obtain ⟨a, b, res, v2, v1⟩ := it
    intro ha; subst_vars; simp [loopStep]
  · obtain ⟨a, b, res, v2, v1⟩ := it
    intro ha hres hb; subst_vars; simp [loopStep]
  · intro it2 h2
    simp [runFetch, loopStep, h2]
  · obtain ⟨a, b, res, v2, v1⟩ := it
    intro ha hres; subst_vars; simp [loopStep]
  · obtain ⟨a, b, res, v2, v1⟩ := it
    intro ha hres; subst_vars; simp [loopStep]
  · obtain ⟨a, b, res, v2, v1⟩ := it
    intro ha hres; subst_vars; simp [loopStep]

/-- Witness for C6 (amended): with the flag set at the pre-attempt check the
fetch is cancelled with no HTTP request; with it set at the 429 pre-sleep
check the iteration sleeps 5 seconds and retries, and the two-iteration run
then cancels at the next pre-attempt check, on attempt 2, with the plain
message. -/
theorem fetch_cancellation_checks_witness :
    loopStep ⟨true, false, .badJson, 0, 0⟩ = (.cancelled "Processing stopped by user", []) ∧
    loopStep ⟨false, true, .status429, 0, 0⟩ = (.retry 5, [.httpGet, .slept 5]) ∧
    runFetch [⟨false, true, .status429, 0, 0⟩, ⟨true, true, .status429, 0, 0⟩] =
      (some (.error "Processing stopped by user"), 2) :=
  ⟨(fetch_cancellation_checks ⟨true, false, .badJson, 0, 0⟩ 0 0 []).1 rfl,
   (fetch_cancellation_checks ⟨false, true, .status429, 0, 0⟩ 0 0 []).2.1 rfl rfl rfl,
   (fetch_cancellation_checks ⟨false, true, .status429, 0, 0⟩ 0 0 []).2.2.1
     ⟨true, true, .status429, 0, 0⟩ rfl⟩

/-! ## C7: deduplication keeps first occurrences in order -/

/-- C7: for every fetched wallet list (entries with non-empty addresses,
possibly duplicated), the dedup step yields a list whose addresses are
pairwise distinct, that is a sublist of the input (so first-seen order is
preserved), that carries exactly the input's addresses, each exactly once,
and in which every kept entry is the first input occurrence of its
address. -/
theorem dedup_first_seen (ts : List Trader) (hne : ∀ t ∈ ts, t.address ≠ "") :
    ((dedupTraders [] ts).map Trader.address).Nodup ∧
    (dedupTraders [] ts).Sublist ts ∧
    (∀ a, a ∈ (dedupTraders [] ts).map Trader.address ↔ a ∈ ts.map Trader.address) ∧
    (∀ a ∈ ts.map Trader.address, ((dedupTraders [] ts).map Trader.address).count a = 1) ∧
    (∀ t' ∈ dedupTraders [] ts, ts.find? (fun s => s.address == t'.address) = some t') := by
  have hmemiff : ∀ a,
      a ∈ (dedupTraders [] ts).map Trader.address ↔ a ∈ ts.map Trader.address := by
    intro a
    rw [mem_dedupTraders_addr]
    constructor
    · exact fun h => h.2.2
    · intro ha
      rcases List.mem_map.mp ha with ⟨t, ht, rfl⟩
      exact ⟨hne t ht, by simp, ha⟩
  refine ⟨dedupTraders_nodup [] ts, dedupTraders_sublist [] ts, hmemiff, ?_,
    dedupTraders_first_occ [] ts⟩
  intro a ha
  exact List.count_eq_one_of_mem (dedupTraders_nodup [] ts) ((hmemiff a).mpr ha)

/-- Witness for C7: a list with a duplicated address keeps only the first
occurrence, and the duplicated address's count drops from 2 to 1. -/
theorem dedup_first_seen_witness :
    dedupTraders [] [⟨"a", 0, 0, 0, 0, 0⟩, ⟨"b", 0, 0, 0, 0, 0⟩, ⟨"a", 7, 0, 0, 0, 0⟩] =
      [⟨"a", 0, 0, 0, 0, 0⟩, ⟨"b", 0, 0, 0, 0, 0⟩] ∧
    (([⟨"a", 0, 0, 0, 0, 0⟩, ⟨"b", 0, 0, 0, 0, 0⟩, ⟨"a", 7, 0, 0, 0, 0⟩] :
        List Trader).map Trader.address).count "a" = 2 ∧
    ((dedupTraders [] [⟨"a", 0, 0, 0, 0, 0⟩, ⟨"b", 0, 0, 0, 0, 0⟩, ⟨"a", 7, 0, 0, 0, 0⟩]).map
        Trader.address).count "a" = 1 :=
  ⟨by decide, by decide,
   (dedup_first_seen [⟨"a", 0, 0, 0, 0, 0⟩, ⟨"b", 0, 0, 0, 0, 0⟩, ⟨"a", 7, 0, 0, 0, 0⟩]
      (by decide)).2.2.2.1 "a" (by decide)⟩

/-! ## C8: a second run after full completion processes nothing -/

/-- C8: when every target of the token list is already checkpointed, the
unresolved-target list of `process_all_tokens` is empty and the run returns
with the coordinator state unchanged — no target is started, nothing is
evaluated, nothing is written — whatever the per-target step would do. -/
theorem rerun_processes_zero_targets (step : Token → CoordSt → CoordSt × Option String)
    (tokens : List Token) (s : CoordSt)
    (hall : ∀ t ∈ tokens, t.addr ∈ get_processed_token_addresses s.db) :
    unprocessedTokens tokens (get_processed_token_addresses s.db) = [] ∧
    process_all_tokens step tokens s = s := by
  have h : unprocessedTokens tokens (get_processed_token_addresses s.db) = [] := by
    rw [unprocessedTokens, List.filter_eq_nil_iff]
    intro t ht
    simp [hall t ht]
  refine ⟨h, ?_⟩
  rw [process_all_tokens, h]
  rfl

/-- Witness for C8: a one-token list whose token is checkpointed yields an
empty unresolved list and an unchanged state. -/
theorem rerun_processes_zero_targets_witness :
    unprocessedTokens [⟨"a", "A"⟩]
      (get_processed_token_addresses ⟨[⟨"a", "A", "A", 3, 1⟩], []⟩) = [] ∧
    process_all_tokens (fun _ s => (s, none)) [⟨"a", "A"⟩]
      ⟨false, ⟨[⟨"a", "A", "A", 3, 1⟩], []⟩, []⟩ =
      ⟨false, ⟨[⟨"a", "A", "A", 3, 1⟩], []⟩, []⟩ :=
  rerun_processes_zero_targets (fun _ s => (s, none)) [⟨"a", "A"⟩]
    ⟨false, ⟨[⟨"a", "A", "A", 3, 1⟩], []⟩, []⟩ (by decide)

/-! ## C9: a non-throttling wallet-list failure checkpoints the target away -/

/-- C9: a wallet-list fetch failing with any exception carrying neither an
HTTP 429 response nor `429` / `rate limit` text returns the empty list and
leaves the stop flag alone; the coordinator then records a `0/0` checkpoint
for the target, after which the target's address is in the processed set and
cannot appear in any later run's unresolved-target list — its wallets are
never evaluated. -/
theorem nonthrottle_failure_marks_processed (stop : Bool) (e : PyExc) (db : Db) (tok : Token)
    (h429 : e.respStatus ≠ some 429)
    (hmsg : hasSub e.msg "429" = false)
    (hrl : hasSub (lowerStr e.msg) "rate limit" = false) :
    fetch_traders_data_onError stop e = ([], stop, false) ∧
    (process_single_token_noTraders db tok).2 = ⟨tok.addr, tok.name, 0, 0⟩ ∧
    (⟨tok.addr, tok.name, tokenSymbol tok.name, 0, 0⟩ : Checkpoint) ∈
      (process_single_token_noTraders db tok).1.processed_tokens ∧
    tok.addr ∈ get_processed_token_addresses (process_single_token_noTraders db tok).1 ∧
    (∀ (tokens : List Token) (t : Token),
      t ∈ unprocessedTokens tokens
        (get_processed_token_addresses (process_single_token_noTraders db tok).1) →
      t.addr ≠ tok.addr) := by
  refine ⟨?_, rfl, ?_, ?_, ?_⟩
  · simp [fetch_traders_data_onError, h429, hmsg, hrl]
  · simp [process_single_token_noTraders, mark_token_processed]
  · simp [process_single_token_noTraders, mark_token_processed, get_processed_token_addresses]
  · intro tokens t ht heq
    have hmem := (List.mem_filter.mp ht).2
    simp only [heq, process_single_token_noTraders, mark_token_processed,
      get_processed_token_addresses, List.map_cons, List.mem_cons, decide_eq_true_eq] at hmem
    exact hmem (Or.inl trivial)

/-- Witness for C9: a plain connection error returns no traders without
setting the stop flag, and the zero/zero checkpoint marks the target
processed. -/
theorem nonthrottle_failure_marks_processed_witness :
    fetch_traders_data_onError false ⟨"connection refused", none⟩ = ([], false, false) ∧
    (process_single_token_noTraders ⟨[], []⟩ ⟨"t1", "UNKNOWN"⟩).2 = ⟨"t1", "UNKNOWN", 0, 0⟩ ∧
    "t1" ∈ get_processed_token_addresses
      (process_single_token_noTraders ⟨[], []⟩ ⟨"t1", "UNKNOWN"⟩).1 := by
  have h := nonthrottle_failure_marks_processed false ⟨"connection refused", none⟩ ⟨[], []⟩
    ⟨"t1", "UNKNOWN"⟩ (by decide) (by decide) (by decide)
  exact ⟨h.1, h.2.1, h.2.2.2.1⟩

/-! ## C1: which failed wallets get an ERROR row -/

/-- Counterexample for C1: a wallet whose evaluation raises the cancellation
exception that `_sync_fetch` itself produces (`"Processing stopped by
user"`, message containing `stopped by user`) is abandoned with no outcome
row at all — `evaluate_and_save` writes nothing, sets the stop flag and
fires the fatal callback — contradicting the claim that every wallet whose
evaluation raises still gets an `ERROR` row. -/
theorem cancelled_wallet_row_dropped :
    evaluate_and_save false "tokenA" "TokenA" "TA" ⟨"walletW", 0, 0, 0, 0, 0⟩
      (.exc "Processing stopped by user") = ⟨none, true, 0, true⟩ := rfl

/-- C1 (amended): a wallet whose evaluation raises is recorded with reason
`ERROR` and fully zeroed stats exactly when the stop flag was still unset
when it started and the exception message carries none of the throttle/stop
markers (`429`, `rate limit`, `stopped by user`); a wallet whose exception
matches a marker, or that starts after the stop flag is set, is abandoned
with no outcome row. -/
theorem error_row_policy (stop : Bool) (tA tN tS : String) (t : Trader) (m : String)
    (hstop : stop = false) (hm : stopMarkers m = false) :
    evaluate_and_save stop tA tN tS t (.exc m) =
      ⟨some { wallet_address := t.address
              token_address := tA
              token_name := tN
              token_symbol := tS
              total_bought_usd := 0
              total_sold_usd := 0
              realized_profit_usd := 0
              realizedProfitRatio := .zero
              currently_holding_amount := 0
              total_buy_transactions := 0
              total_sell_transactions := 0
              evaluation_result := "ERROR"
              tagsJson := none
              winrate := 0
              pnl_usd_7d := 0
              pnl_usd_30d := 0
              pnl_pct_7d := 0
              pnl_pct_30d := 0
              tx_7d := 0
              tx_30d := 0
              top_holdings := [] }, false, 0, false⟩ ∧
    (∀ m', stopMarkers m' = true →
      (evaluate_and_save false tA tN tS t (.exc m')).row = none) ∧
    (∀ res, (evaluate_and_save true tA tN tS t res).row = none) := by
  subst hstop
  refine ⟨?_, ?_, ?_⟩
  · simp [evaluate_and_save, hm, save_trader_data, errorStats]
  · intro m' hm'
    simp [evaluate_and_save, hm']
  · intro res
    simp [evaluate_and_save]

/-- Witness for C1 (amended): a marker-free exception (`"boom"`) with the
stop flag unset produces exactly the zeroed `ERROR` row. -/
theorem error_row_policy_witness :
    evaluate_and_save false "tokenA" "TokenA" "TA" ⟨"walletW", 0, 0, 0, 0, 0⟩ (.exc "boom") =
      ⟨some { wallet_address := "walletW"
              token_address := "tokenA"
              token_name := "TokenA"
              token_symbol := "TA"
              total_bought_usd := 0
              total_sold_usd := 0
              realized_profit_usd := 0
              realizedProfitRatio := .zero
              currently_holding_amount := 0
              total_buy_transactions := 0
              total_sell_transactions := 0
              evaluation_result := "ERROR"
              tagsJson := none
              winrate := 0
              pnl_usd_7d := 0
              pnl_usd_30d := 0
              pnl_pct_7d := 0
              pnl_pct_30d := 0
              tx_7d := 0
              tx_30d := 0
              top_holdings := [] }, false, 0, false⟩ :=
  (error_row_policy false "tokenA" "TokenA" "TA" ⟨"walletW", 0, 0, 0, 0, 0⟩ "boom"
    rfl (by decide)).1

/-! ## C2: persistent 429 and the stop flag -/

/-- Counterexample for C2: with the upstream answering HTTP 429 on every
per-wallet fetch attempt and the stop flag unset, `_sync_fetch` is still
retrying after 100 attempts with no decisive outcome — it neither raises nor
returns, so no coordinator handler runs and no stop flag is set within any
bounded number of retries (the companion theorem proves this for every
attempt count). -/
theorem persistent429_retries_unbounded_no_stop :
    runFetch (List.replicate 100 iter429) = (none, 100) :=
  runFetch_persistent429 100

/-- C2 (amended): a persistent-429 per-wallet fetch retries without bound and
never produces the exception a handler would need in order to set the stop
flag; by contrast, a 429 on the wallet-list fetch (whose client raises on
the first 429) makes `fetch_traders_data` set the stop flag on that single
attempt; the current target still records its checkpoint (here the `0/0`
one), and once the stop flag is set the target loop starts no further
targets. -/
theorem throttle_stop_policy :
    (∀ n, runFetch (List.replicate n iter429) = (none, n)) ∧
    (∀ (stop : Bool) (e : PyExc), e.respStatus = some 429 →
      fetch_traders_data_onError stop e = ([], true, true)) ∧
    (∀ (db : Db) (tok : Token),
      (⟨tok.addr, tok.name, tokenSymbol tok.name, 0, 0⟩ : Checkpoint) ∈
        (process_single_token_noTraders db tok).1.processed_tokens) ∧
    (∀ (step : Token → CoordSt → CoordSt × Option String) (ts : List Token) (s : CoordSt),
      s.stopFlag = true → runLoop step ts s = s) := by
  refine ⟨runFetch_persistent429, ?_, ?_, ?_⟩
  · intro stop e he
    simp [fetch_traders_data_onError, he]
  · intro db tok
    simp [process_single_token_noTraders, mark_token_processed]
  · intro step ts s hs
    cases ts with
    | nil => rfl
    | cons t ts => simp [runLoop, hs]

/-- Witness for C2 (amended): a concrete 429 wallet-list failure sets the
stop flag at once, and a stopped loop leaves the state untouched. -/
theorem throttle_stop_policy_witness :
    fetch_traders_data_onError false ⟨"429 Too Many Requests", some 429⟩ = ([], true, true) ∧
    runLoop (fun _ s => (s, none)) [⟨"t2", "B"⟩] ⟨true, ⟨[], []⟩, []⟩ = ⟨true, ⟨[], []⟩, []⟩ :=
  ⟨throttle_stop_policy.2.1 false ⟨"429 Too Many Requests", some 429⟩ rfl,
   throttle_stop_policy.2.2.2 (fun _ s => (s, none)) [⟨"t2", "B"⟩] ⟨true, ⟨[], []⟩, []⟩ rfl⟩

end Lumen
